import Mathlib

/-! # provider-exoscale2: the ExoscaleSKS controller

A shallow embedding of `internal/controller/exoapi/exoscaleapi.go` and
`internal/controller/exoscalesks/exoscalesks.go`, with the parts of
`apis/exoscale2/v1alpha1` they read.

Conventions of the embedding.

* A Go `string` is a Lean `String`; the functions of package `strings` work on
  its list of characters.
* A Go `error` is its message (`err.Error()`), a `String`.
* Everything outside the repository (the egoscale client, `net/http`,
  `encoding/json`, `encoding/base64`, the Kubernetes client, the usage tracker)
  is a field of an environment record, so the theorems hold for every
  behaviour of those collaborators.  Reads of the remote system are functions
  of the remote state; the one write, `CreateSKSCluster`, also returns the
  next remote state.
* `log.Info` and `fmt.Printf` only write diagnostics and are left out, except
  that a pointer dereference in their arguments is kept: on a nil pointer it
  panics.
-/

set_option autoImplicit false
set_option linter.unusedVariables false

/-! ## Package `strings` of the Go standard library (the part `getUrl` uses) -/

namespace strings

/-- Go `strings.HasPrefix`, on character lists: `s` begins with `p`. -/
def HasPrefix : List Char → List Char → Bool
  | _, [] => true
  | [], _ :: _ => false
  | c :: s, p :: ps => (c == p) && HasPrefix s ps

/-- Go `strings.Index`, on character lists: the position of the first
occurrence of `sep` in `s`; `none` stands for Go's `-1`. -/
def indexChars : List Char → List Char → Option Nat
  | [], sep => if sep.isEmpty then some 0 else none
  | c :: s, sep =>
    if HasPrefix (c :: s) sep then some 0 else (indexChars s sep).map (· + 1)

/-- The loop of Go `strings.Count` for a non-empty `sep`: find the next
occurrence, count it, continue after it.  `fuel` bounds the iterations. -/
def countFrom (sep : List Char) : Nat → List Char → Nat
  | 0, _ => 0
  | fuel + 1, s =>
    match indexChars s sep with
    | none => 0
    | some i => 1 + countFrom sep fuel (s.drop (i + sep.length))

/-- Go `strings.Count`, on character lists: the number of non-overlapping
occurrences of `substr`; one more than the number of characters when `substr`
is empty. -/
def countChars (s substr : List Char) : Nat :=
  if substr.isEmpty then s.length + 1 else countFrom substr (s.length + 1) s

/-- The replacement loop of Go `strings.Replace` for a non-empty `old`:
`n` times, copy up to the next occurrence of `old`, write `new`, skip `old`;
then copy the rest. -/
def replaceFrom (old new : List Char) : Nat → List Char → List Char
  | 0, s => s
  | n + 1, s =>
    match indexChars s old with
    | none => s
    | some j => s.take j ++ new ++ replaceFrom old new n (s.drop (j + old.length))

/-- The replacement loop of Go `strings.Replace` for an empty `old`, after the
first insertion: copy one character, write `new`, `n` times; then copy the
rest. -/
def replaceEmpty (new : List Char) : Nat → List Char → List Char
  | 0, s => s
  | _ + 1, [] => []
  | n + 1, c :: s => c :: (new ++ replaceEmpty new n s)

/-- Go `strings.Replace`, on character lists. -/
def replaceChars (s old new : List Char) (n : Int) : List Char :=
  if old = new ∨ n = 0 then s
  else
    let m := countChars s old
    if m = 0 then s
    else
      let n := if n < 0 ∨ (m : Int) < n then m else n.toNat
      if old.isEmpty then new ++ replaceEmpty new (n - 1) s
      else replaceFrom old new n s

/-- Go `strings.Replace(s, old, new, n)`. -/
def Replace (s old new : String) (n : Int) : String :=
  ⟨replaceChars s.data old.data new.data n⟩

/-- Go `strings.Contains(s, substr)`. -/
def Contains (s substr : String) : Bool :=
  (indexChars s.data substr.data).isSome

end strings

namespace exoapi

/-- The constant `apiURL` of `exoscaleapi.go`. -/
def apiURL : String := "https://api-ZONE.exoscale.com/v2/ENDPOINT"

/-- The function `getUrl` of `exoscaleapi.go`. -/
def getUrl (zone : String) (endpoint : String) : String :=
  strings.Replace (strings.Replace apiURL "ZONE" zone 1) "ENDPOINT" endpoint 1

end exoapi

/-! ## Values shared by the packages -/

/-- Outcome of a Go call that returns `(value, error)`: a value, an error
(its message), or a run-time panic (its message). -/
inductive Res (α : Type) where
  | ok (a : α)
  | err (e : String)
  | panic (p : String)
  deriving DecidableEq, Repr

/-- Message of the Go run-time panic on a nil pointer. -/
def nilDereference : String :=
  "runtime error: invalid memory address or nil pointer dereference"

/-- Go `errors.Wrap(err, message)` of `github.com/pkg/errors`, as a message. -/
def Wrap (err : String) (message : String) : String :=
  message ++ ": " ++ err

/-- Go `context.Context`, as far as the controller looks at it: the
background context, or a context carrying a deadline. -/
inductive Context where
  | Background
  | WithDeadline (deadline : Nat)
  deriving DecidableEq, Repr

/-- Go `ctx.Deadline()`. -/
def Context.Deadline : Context → Option Nat
  | .Background => none
  | .WithDeadline d => some d

/-! ## Package `apis/exoscale2/v1alpha1` -/

namespace v1alpha1

/-- The type `xpv1.Reference` of crossplane-runtime (its name). -/
structure Reference where
  Name : String
  deriving DecidableEq, Repr

/-- The type `xpv1.ResourceSpec` of crossplane-runtime: the references the
generated getters of `zz_generated.managed.go` return. -/
structure ResourceSpec where
  ProviderConfigReference : Option Reference
  ProviderReference : Option Reference
  deriving DecidableEq, Repr

/-- The type `ExoscaleSKSParameters` of `exoscalesks_types.go`. -/
structure ExoscaleSKSParameters where
  Name : String
  Zone : String
  Cni : String
  ServiceLevel : String
  NodepoolName : String
  NodepoolSize : Int
  NodepoolSecurityGroup : String
  NodepoolInstanceType : String
  NodepoolDiskSize : Int
  NodepoolPrivateNetwork : String
  deriving DecidableEq, Repr

/-- The type `ExoscaleSKSObservation` of `exoscalesks_types.go`. -/
structure ExoscaleSKSObservation where
  ID : String
  State : String
  deriving DecidableEq, Repr

/-- The type `ExoscaleSKSSpec` of `exoscalesks_types.go`. -/
structure ExoscaleSKSSpec extends ResourceSpec where
  ForProvider : ExoscaleSKSParameters
  deriving DecidableEq, Repr

/-- The type `ExoscaleSKSStatus` of `exoscalesks_types.go`. -/
structure ExoscaleSKSStatus where
  AtProvider : ExoscaleSKSObservation
  deriving DecidableEq, Repr

/-- The type `ExoscaleSKS` of `exoscalesks_types.go`; `Name` is the name in
the embedded object metadata. -/
structure ExoscaleSKS where
  Name : String
  Spec : ExoscaleSKSSpec
  Status : ExoscaleSKSStatus
  deriving DecidableEq, Repr

/-- The getter `GetProviderConfigReference` of `zz_generated.managed.go`. -/
def ExoscaleSKS.GetProviderConfigReference (mg : ExoscaleSKS) : Option Reference :=
  mg.Spec.ProviderConfigReference

/-- The getter `GetProviderReference` of `zz_generated.managed.go`. -/
def ExoscaleSKS.GetProviderReference (mg : ExoscaleSKS) : Option Reference :=
  mg.Spec.ProviderReference

/-- The setter `SetProviderConfigReference` of `zz_generated.managed.go`. -/
def ExoscaleSKS.SetProviderConfigReference (mg : ExoscaleSKS) (r : Option Reference) :
    ExoscaleSKS :=
  { mg with Spec := { mg.Spec with ProviderConfigReference := r } }

end v1alpha1

/-- A value of the interface `resource.Managed`: an `ExoscaleSKS`, or a
managed resource of another kind (its name and provider-config reference). -/
inductive Managed where
  | ExoscaleSKS (cr : v1alpha1.ExoscaleSKS)
  | other (name : String) (providerConfigRef : Option v1alpha1.Reference)
  deriving DecidableEq, Repr

/-- The method `GetName` of `resource.Managed`. -/
def Managed.GetName : Managed → String
  | .ExoscaleSKS cr => cr.Name
  | .other name _ => name

/-- The method `GetProviderConfigReference` of `resource.Managed`. -/
def Managed.GetProviderConfigReference : Managed → Option v1alpha1.Reference
  | .ExoscaleSKS cr => cr.GetProviderConfigReference
  | .other _ ref => ref

/-! ## The remote system and the libraries that reach it -/

namespace exo

/-- The type `exo.SKSCluster` of egoscale: the pointer fields the controller
sets or reads (`none` is a nil pointer). -/
structure SKSCluster where
  ID : Option String
  Name : Option String
  ServiceLevel : Option String
  Version : Option String
  CNI : Option String
  Zone : Option String
  deriving DecidableEq, Repr

/-- The type `exo.Client` of egoscale, as built by `exo.NewClient`. -/
structure Client where
  apiKey : String
  apiSecret : String
  deriving DecidableEq, Repr

end exo

namespace http

/-- The type `http.Request`: method, URL, the context the request carries and
the `Authorization` header. -/
structure Request where
  Method : String
  URL : String
  ctx : Context
  Authorization : Option String
  deriving DecidableEq, Repr

/-- The type `http.Response`: status code and the outcome of reading the body
to its end. -/
structure Response where
  StatusCode : Nat
  Body : Except String String

end http

/-- Go `io.ReadAll`, on a body whose read outcome is known. -/
def io.ReadAll (body : Except String String) : Except String String :=
  body

/-- A call that reaches the remote system, with the context it was issued
with. -/
inductive RemoteCall where
  | Do (req : http.Request)
  | FindSKSCluster (ctx : Context) (zone : String) (x : String)
  | CreateSKSCluster (ctx : Context) (zone : String) (cluster : exo.SKSCluster)
  deriving DecidableEq, Repr

/-- The context a remote call was issued with. -/
def RemoteCall.ctx : RemoteCall → Context
  | .Do req => req.ctx
  | .FindSKSCluster ctx _ _ => ctx
  | .CreateSKSCluster ctx _ _ => ctx

/-- Whether a remote call only reads the remote system (an HTTP GET, or the
list-and-get lookup of `FindSKSCluster`). -/
def RemoteCall.isRead : RemoteCall → Bool
  | .Do req => req.Method == "GET"
  | .FindSKSCluster _ _ _ => true
  | .CreateSKSCluster _ _ _ => false

namespace exoapi

/-- The type `SksCluster` of `exoscaleapi.go`. -/
structure SksCluster where
  Name : String
  Description : String
  Cni : String
  Level : String
  deriving DecidableEq, Repr

/-- The type `SksClusters` of `exoscaleapi.go`. -/
structure SksClusters where
  Clusters : List SksCluster
  deriving DecidableEq, Repr

/-- The type `api.SecurityProviderExoscale` of egoscale. -/
structure SecurityProvider where
  apiKey : String
  apiSecret : String
  deriving DecidableEq, Repr

end exoapi

/-- The collaborators outside the repository, over a type `σ` of states of the
remote system.

* `NewSecurityProvider` is `api.NewSecurityProvider`;
* `URLParses` says whether `http.NewRequest` accepts a URL;
* `Signature` is the header value `provider.Intercept` computes, `none` when
  signing fails (the source drops the error `Intercept` returns);
* `Do` is `http.DefaultClient.Do`;
* `Unmarshal` is `json.Unmarshal` into an `SksClusters`;
* `NewClient`, `FindSKSCluster`, `CreateSKSCluster` are those of egoscale;
  `CreateSKSCluster` also gives the remote state after the call. -/
structure Remote (σ : Type) where
  NewSecurityProvider : String → String → Except String exoapi.SecurityProvider
  URLParses : String → Bool
  Signature : exoapi.SecurityProvider → http.Request → Option String
  Do : σ → http.Request → Except String http.Response
  Unmarshal : String → Except String exoapi.SksClusters
  NewClient : String → String → Except String exo.Client
  FindSKSCluster : exo.Client → Context → σ → String → String → Except String exo.SKSCluster
  CreateSKSCluster : exo.Client → Context → σ → String → exo.SKSCluster →
    Except String exo.SKSCluster × σ

/-- Go `http.NewRequest(method, url, nil)`: a request carrying the background
context, or `none` (a nil request, with an error) when the URL does not
parse. -/
def http.NewRequest {σ : Type} (R : Remote σ) (method : String) (url : String) :
    Option http.Request :=
  if R.URLParses url then
    some { Method := method, URL := url, ctx := Context.Background, Authorization := none }
  else none

/-- The method `Intercept` of the security provider: it signs the request,
setting its `Authorization` header. -/
def exoapi.SecurityProvider.Intercept {σ : Type} (R : Remote σ)
    (provider : exoapi.SecurityProvider) (req : http.Request) : http.Request :=
  { req with Authorization := R.Signature provider req }

namespace exoapi

/-- The function `RetrieveClusters` of `exoscaleapi.go`, on the remote state
`s`: its result and the remote calls it issued.  The error of
`http.NewRequest` is dropped by the source, so a URL that does not parse
leaves a nil request, which `Intercept` dereferences. -/
def RetrieveClusters {σ : Type} (R : Remote σ) (s : σ) (exoApiKey : String)
    (exoApiSecret : String) (zone : String) : Res SksClusters × List RemoteCall :=
  match R.NewSecurityProvider exoApiKey exoApiSecret with
  | .error err => (.err err, [])
  | .ok provider =>
    match http.NewRequest R "GET" (getUrl zone "sks-cluster") with
    | none => (.panic nilDereference, [])
    | some req =>
      let req := provider.Intercept R req
      match R.Do s req with
      | .error err => (.err err, [.Do req])
      | .ok res =>
        match io.ReadAll res.Body with
        | .error err => (.err err, [.Do req])
        | .ok resBody =>
          match R.Unmarshal resBody with
          | .error err => (.err err, [.Do req])
          | .ok clusters => (.ok clusters, [.Do req])

end exoapi

/-! ## Package `internal/controller/exoscalesks` -/

namespace managed

/-- The type `managed.ConnectionDetails`: keys and values. -/
abbrev ConnectionDetails := List (String × String)

/-- The type `managed.ExternalObservation` of crossplane-runtime: the fields
the controller sets. -/
structure ExternalObservation where
  ResourceExists : Bool
  ResourceUpToDate : Bool
  ConnectionDetails : ConnectionDetails
  deriving DecidableEq, Repr

/-- The type `managed.ExternalCreation` of crossplane-runtime. -/
structure ExternalCreation where
  ConnectionDetails : ConnectionDetails
  deriving DecidableEq, Repr

/-- The type `managed.ExternalUpdate` of crossplane-runtime. -/
structure ExternalUpdate where
  ConnectionDetails : ConnectionDetails
  deriving DecidableEq, Repr

end managed

namespace corev1

/-- The type `corev1.SecretReference`. -/
structure SecretReference where
  Namespace : String
  Name : String
  deriving DecidableEq, Repr

/-- The type `corev1.Secret`: its name and its data; `Data key` is
`secret.Data[key]`, with `none` for a nil byte slice (also the value of a key
the map does not hold). -/
structure Secret where
  Name : String
  Data : String → Option String

/-- The Go zero value `corev1.Secret{}`. -/
def Secret.zero : Secret :=
  { Name := "", Data := fun _ => none }

end corev1

namespace apisv1alpha1

/-- Modelled from the spec: the type `ProviderCredentials` of package
`apis/v1alpha1` is not among the sources; kept is the field `Connect` reads,
the reference to the secret holding the API key and secret. -/
structure ProviderCredentials where
  APISecretRef : corev1.SecretReference
  deriving DecidableEq, Repr

/-- Modelled from the spec: the type `ProviderConfigSpec` of package
`apis/v1alpha1` is not among the sources; kept is the field `Connect` reads. -/
structure ProviderConfigSpec where
  Credentials : ProviderCredentials
  deriving DecidableEq, Repr

/-- Modelled from the spec: the type `ProviderConfig` of package
`apis/v1alpha1` is not among the sources; kept is the field `Connect` reads. -/
structure ProviderConfig where
  Spec : ProviderConfigSpec
  deriving DecidableEq, Repr

end apisv1alpha1

namespace client

/-- The type `client.ObjectKey` of controller-runtime. -/
structure ObjectKey where
  Namespace : String
  Name : String
  deriving DecidableEq, Repr

/-- The interface `client.Client` of controller-runtime, as `Connect` uses it:
`Get` of a ProviderConfig by name and `Get` of a Secret by key.  On an error
`Get` leaves the object it was given as it was. -/
structure Client where
  GetProviderConfig : Context → String → Except String apisv1alpha1.ProviderConfig
  GetSecret : Context → ObjectKey → Except String corev1.Secret

end client

namespace resource

/-- The interface `resource.Tracker` of crossplane-runtime: `Track` returns an
error (`some`) or nil (`none`). -/
structure Tracker where
  Track : Context → Managed → Option String

/-- Message of crossplane-runtime's `errMissingPCRef`. -/
def errMissingPCRef : String := "managed resource does not reference a ProviderConfig"

/-- Message of crossplane-runtime's `errApplyPCU`. -/
def errApplyPCU : String := "cannot apply ProviderConfigUsage"

/-- The tracker `resource.NewProviderConfigUsageTracker` of crossplane-runtime
builds.  Its `Track` reads the provider-config reference of the managed
resource, returns `errMissingPCRef` when it is nil, and otherwise applies a
ProviderConfigUsage (`apply`), wrapping its error. -/
def NewProviderConfigUsageTracker (apply : Context → Managed → Option String) : Tracker :=
  { Track := fun ctx mg =>
      match mg.GetProviderConfigReference with
      | none => some errMissingPCRef
      | some _ =>
        match apply ctx mg with
        | none => none
        | some err => some (Wrap err errApplyPCU) }

end resource

namespace base64

/-- The type `base64.Encoding` of the Go standard library: its method
`DecodeString`. -/
structure Encoding where
  DecodeString : String → Except String String

end base64

namespace exoscalesks

/-- The constant `errNotExoscaleSKS`. -/
def errNotExoscaleSKS : String := "managed resource is not a ExoscaleSKS custom resource"
/-- The constant `errTrackPCUsage`. -/
def errTrackPCUsage : String := "cannot track ProviderConfig usage"
/-- The constant `errGetPC`. -/
def errGetPC : String := "cannot get ProviderConfig"
/-- The constant `errGetCreds`. -/
def errGetCreds : String := "cannot get credentials"
/-- The constant `errNewClient`. -/
def errNewClient : String := "cannot create new Service"

/-- The constant `exoApiKey`. -/
def exoApiKey : String := "EXOSCALE_API_KEY"
/-- The constant `exoApiSecret`. -/
def exoApiSecret : String := "EXOSCALE_API_SECRET"

/-- The type `connector`. -/
structure connector where
  kube : client.Client
  usage : resource.Tracker

/-- The connector `Setup` hands to the reconciler: its tracker is the one
`resource.NewProviderConfigUsageTracker` builds. -/
def Setup.connector (kube : client.Client) (apply : Context → Managed → Option String) :
    connector :=
  { kube := kube, usage := resource.NewProviderConfigUsageTracker apply }

/-- The type `external`. -/
structure external where
  exoApiKey : String
  exoApiSecret : String
  deriving DecidableEq, Repr

/-- The function `parseSecretKey`. -/
def parseSecretKey (StdEncoding : base64.Encoding) (secret : corev1.Secret) (key : String) :
    Except String String :=
  match secret.Data key with
  | none => .error ("Key " ++ key ++ " not found in secret " ++ secret.Name)
  | some data =>
    match StdEncoding.DecodeString data with
    | .error err => .error ("Cannot decode " ++ key ++ ": " ++ err)
    | .ok value => .ok value

/-- The method `connector.Connect`.  The source dereferences
`cr.GetProviderConfigReference()` without a nil check, and drops the error of
the `Get` of the secret, going on with the secret as `Get` left it. -/
def Connect (StdEncoding : base64.Encoding) (c : connector) (ctx : Context) (mg : Managed) :
    Res external :=
  match mg with
  | .other _ _ => .err errNotExoscaleSKS
  | .ExoscaleSKS cr =>
    match c.usage.Track ctx mg with
    | some err => .err (Wrap err errTrackPCUsage)
    | none =>
      match cr.GetProviderConfigReference with
      | none => .panic nilDereference
      | some ref =>
        match c.kube.GetProviderConfig ctx ref.Name with
        | .error err => .err (Wrap err errGetPC)
        | .ok pc =>
          let secret :=
            match c.kube.GetSecret ctx
                { Namespace := pc.Spec.Credentials.APISecretRef.Namespace,
                  Name := pc.Spec.Credentials.APISecretRef.Name } with
            | .ok fetched => fetched
            | .error _ => corev1.Secret.zero
          match parseSecretKey StdEncoding secret exoApiKey with
          | .error err => .err err
          | .ok exoKey =>
            match parseSecretKey StdEncoding secret exoApiSecret with
            | .error err => .err err
            | .ok exoSecret => .ok { exoApiKey := exoKey, exoApiSecret := exoSecret }

/-- What a method of `external` leaves behind: its result, the remote state
after it, the remote calls it issued, and the managed resource record after
it. -/
structure Outcome (σ : Type) (α : Type) where
  result : Res α
  remote : σ
  calls : List RemoteCall
  mg : Managed

/-- The method `external.Observe`, on the remote state `s`.  The log line
after a successful lookup dereferences the name and the ID of the cluster
found, without a nil check. -/
def Observe {σ : Type} (R : Remote σ) (c : external) (ctx : Context) (mg : Managed) (s : σ) :
    Outcome σ managed.ExternalObservation :=
  match mg with
  | .other _ _ => { result := .err errNotExoscaleSKS, remote := s, calls := [], mg := mg }
  | .ExoscaleSKS cr =>
    match exoapi.RetrieveClusters R s c.exoApiKey c.exoApiSecret cr.Spec.ForProvider.Zone with
    | (.panic p, calls) => { result := .panic p, remote := s, calls := calls, mg := mg }
    | (.err err, calls) =>
      { result := .err ("failed to retrieve sks clusters from exoscale: " ++ err),
        remote := s, calls := calls, mg := mg }
    | (.ok clusters, calls) =>
      let found := clusters.Clusters.foldl
        (fun found c => if c.Name = cr.Name then true else found) false
      match R.NewClient c.exoApiKey c.exoApiSecret with
      | .error err =>
        { result := .err ("Error creating Exoscale Client: " ++ err),
          remote := s, calls := calls, mg := mg }
      | .ok exoClient =>
        let found := true
        let calls := calls ++ [.FindSKSCluster ctx cr.Spec.ForProvider.Zone cr.Name]
        match R.FindSKSCluster exoClient ctx s cr.Spec.ForProvider.Zone cr.Name with
        | .error err =>
          if err = "resource not found" then
            let found := false
            { result := .ok { ResourceExists := found, ResourceUpToDate := true,
                              ConnectionDetails := [] },
              remote := s, calls := calls, mg := mg }
          else
            { result := .err ("Error retrieving Exoscale SKS Cluster Info: " ++ err),
              remote := s, calls := calls, mg := mg }
        | .ok skscluster =>
          match skscluster.Name, skscluster.ID with
          | some _, some _ =>
            { result := .ok { ResourceExists := found, ResourceUpToDate := true,
                              ConnectionDetails := [] },
              remote := s, calls := calls, mg := mg }
          | _, _ => { result := .panic nilDereference, remote := s, calls := calls, mg := mg }

/-- The method `external.Create`, on the remote state `s`.  The log line
after a successful creation dereferences the ID of the cluster created,
without a nil check. -/
def Create {σ : Type} (R : Remote σ) (c : external) (ctx : Context) (mg : Managed) (s : σ) :
    Outcome σ managed.ExternalCreation :=
  match mg with
  | .other _ _ => { result := .err errNotExoscaleSKS, remote := s, calls := [], mg := mg }
  | .ExoscaleSKS cr =>
    match R.NewClient c.exoApiKey c.exoApiSecret with
    | .error err =>
      { result := .err ("Error creating Exoscale Client: " ++ err),
        remote := s, calls := [], mg := mg }
    | .ok exoClient =>
      let version := "1.28.4"
      let skscluster : exo.SKSCluster :=
        { ID := none,
          Name := some cr.Spec.ForProvider.Name,
          ServiceLevel := some cr.Spec.ForProvider.ServiceLevel,
          Version := some version,
          CNI := some cr.Spec.ForProvider.Cni,
          Zone := some cr.Spec.ForProvider.Zone }
      let dl := ctx.Deadline
      let calls := [RemoteCall.CreateSKSCluster Context.Background cr.Spec.ForProvider.Zone
        skscluster]
      match R.CreateSKSCluster exoClient Context.Background s cr.Spec.ForProvider.Zone
          skscluster with
      | (.error err, s1) =>
        { result := .err ("Error creating Exoscale SKS Cluster: " ++ err),
          remote := s1, calls := calls, mg := mg }
      | (.ok sksclusteroutput, s1) =>
        match sksclusteroutput.ID with
        | none => { result := .panic nilDereference, remote := s1, calls := calls, mg := mg }
        | some _ =>
          { result := .ok { ConnectionDetails := [] }, remote := s1, calls := calls, mg := mg }

/-- The method `external.Update`, on the remote state `s`. -/
def Update {σ : Type} (R : Remote σ) (c : external) (ctx : Context) (mg : Managed) (s : σ) :
    Outcome σ managed.ExternalUpdate :=
  match mg with
  | .other _ _ => { result := .err errNotExoscaleSKS, remote := s, calls := [], mg := mg }
  | .ExoscaleSKS cr =>
    { result := .ok { ConnectionDetails := [] }, remote := s, calls := [], mg := mg }

/-- The method `external.Delete`, on the remote state `s`; its result is the
returned error, `ok ()` for nil. -/
def Delete {σ : Type} (R : Remote σ) (c : external) (ctx : Context) (mg : Managed) (s : σ) :
    Outcome σ Unit :=
  match mg with
  | .other _ _ => { result := .err errNotExoscaleSKS, remote := s, calls := [], mg := mg }
  | .ExoscaleSKS cr => { result := .ok (), remote := s, calls := [], mg := mg }

end exoscalesks

/-! ## A sample environment, for evaluating the controller on concrete inputs -/

namespace sample

/-- The lines of a text, each ended by a line feed; `acc` holds the current
line, reversed. -/
def splitLines : List Char → List Char → List String
  | acc, [] => if acc.isEmpty then [] else [String.mk acc.reverse]
  | acc, ch :: rest =>
    if ch = '\n' then String.mk acc.reverse :: splitLines [] rest
    else splitLines (ch :: acc) rest

/-- A response body listing cluster names, one a line. -/
def renderNames : List String → String
  | [] => ""
  | name :: rest => name ++ "\n" ++ renderNames rest

/-- Whether credentials are usable: egoscale refuses an empty key or secret. -/
def usable (apiKey : String) (apiSecret : String) : Bool :=
  apiKey != "" && apiSecret != ""

/-- A remote system whose state is the list of its SKS clusters.  Listing
gives the names of the clusters of the zone the URL addresses; the lookup
gives the first cluster of the zone whose ID or name is the text asked for,
or the error "resource not found"; creation adds the cluster, under the name
the request carries, with a fresh ID. -/
def remote : Remote (List exo.SKSCluster) where
  NewSecurityProvider := fun apiKey apiSecret =>
    if usable apiKey apiSecret then .ok { apiKey := apiKey, apiSecret := apiSecret }
    else .error "missing or incomplete API credentials"
  URLParses := fun url => url.data.all (fun ch => ch != ' ')
  Signature := fun provider _ => some ("EXO2-HMAC-SHA256 credential=" ++ provider.apiKey)
  Do := fun s req =>
    .ok { StatusCode := 200,
          Body := .ok (renderNames ((s.filter (fun cl =>
            match cl.Zone with
            | some zone => req.URL == exoapi.getUrl zone "sks-cluster"
            | none => false)).filterMap (fun cl => cl.Name))) }
  Unmarshal := fun body =>
    .ok { Clusters := (splitLines [] body.data).map (fun name =>
      { Name := name, Description := "", Cni := "", Level := "" }) }
  NewClient := fun apiKey apiSecret =>
    if usable apiKey apiSecret then .ok { apiKey := apiKey, apiSecret := apiSecret }
    else .error "missing or incomplete API credentials"
  FindSKSCluster := fun _ _ s zone x =>
    match s.find? (fun cl => cl.Zone == some zone && (cl.ID == some x || cl.Name == some x)) with
    | some cl => .ok cl
    | none => .error "resource not found"
  CreateSKSCluster := fun _ _ s zone cl =>
    let created : exo.SKSCluster :=
      { cl with ID := some ("id-" ++ cl.Name.getD ""), Zone := some zone }
    (.ok created, s ++ [created])

/-- Credentials of the adapter. -/
def credentials : exoscalesks.external :=
  { exoApiKey := "key", exoApiSecret := "secret" }

/-- An ExoscaleSKS resource in zone ch-gva-2 referencing the ProviderConfig
"default". -/
def resourceNamed (metadataName : String) (clusterName : String) (cni : String)
    (serviceLevel : String) : v1alpha1.ExoscaleSKS :=
  { Name := metadataName,
    Spec :=
      { ProviderConfigReference := some { Name := "default" },
        ProviderReference := none,
        ForProvider :=
          { Name := clusterName, Zone := "ch-gva-2", Cni := cni, ServiceLevel := serviceLevel,
            NodepoolName := "pool", NodepoolSize := 3, NodepoolSecurityGroup := "",
            NodepoolInstanceType := "", NodepoolDiskSize := 0, NodepoolPrivateNetwork := "" } },
    Status := { AtProvider := { ID := "", State := "" } } }

/-- A resource whose metadata name differs from its spec.forProvider.name. -/
def renamed : Managed :=
  .ExoscaleSKS (resourceNamed "sks-prod" "prod-cluster" "calico" "pro")

/-- A resource whose metadata name is its spec.forProvider.name. -/
def c1 : Managed :=
  .ExoscaleSKS (resourceNamed "c1" "c1" "calico" "pro")

/-- A remote state holding a cluster "c1" in zone ch-gva-2 whose CNI and
service level differ from those `c1` asks for. -/
def drifted : List exo.SKSCluster :=
  [{ ID := some "id-c1", Name := some "c1", ServiceLevel := some "starter",
     Version := some "1.28.4", CNI := some "cilium", Zone := some "ch-gva-2" }]

/-- The context of a reconcile: it carries the deadline of the reconciler. -/
def reconcileCtx : Context := .WithDeadline 600

/-- The six bits a character of the standard base64 alphabet stands for. -/
def sextet (ch : Char) : Option Nat :=
  if 'A' ≤ ch ∧ ch ≤ 'Z' then some (ch.toNat - 65)
  else if 'a' ≤ ch ∧ ch ≤ 'z' then some (ch.toNat - 71)
  else if '0' ≤ ch ∧ ch ≤ '9' then some (ch.toNat + 4)
  else if ch = '+' then some 62
  else if ch = '/' then some 63
  else none

/-- Decoding of padded standard base64, four characters at a time. -/
def decodeQuads : List Char → Option (List Char)
  | [] => some []
  | [a, b, '=', '='] =>
    match sextet a, sextet b with
    | some x, some y => some [Char.ofNat (x * 4 + y / 16)]
    | _, _ => none
  | [a, b, c, '='] =>
    match sextet a, sextet b, sextet c with
    | some x, some y, some z =>
      some [Char.ofNat (x * 4 + y / 16), Char.ofNat (y % 16 * 16 + z / 4)]
    | _, _, _ => none
  | a :: b :: c :: d :: rest =>
    match sextet a, sextet b, sextet c, sextet d, decodeQuads rest with
    | some x, some y, some z, some w, some tail =>
      some (Char.ofNat (x * 4 + y / 16) :: Char.ofNat (y % 16 * 16 + z / 4) ::
        Char.ofNat (z % 4 * 64 + w) :: tail)
    | _, _, _, _, _ => none
  | _ => none

/-- A decoder of padded standard base64. -/
def StdEncoding : base64.Encoding where
  DecodeString := fun text =>
    match decodeQuads text.data with
    | some bytes => .ok (String.mk bytes)
    | none => .error "illegal base64 data"

/-- The secret "exoscale-creds": the base64 texts of "key" and "secret", and
an empty value under "EMPTY". -/
def secret : corev1.Secret where
  Name := "exoscale-creds"
  Data := fun key =>
    if key = "EXOSCALE_API_KEY" then some "a2V5"
    else if key = "EXOSCALE_API_SECRET" then some "c2VjcmV0"
    else if key = "EMPTY" then some ""
    else none

/-- A Kubernetes API holding the ProviderConfig "default", which refers to the
secret "exoscale-creds" of namespace "crossplane-system", and that secret. -/
def kube : client.Client where
  GetProviderConfig := fun _ name =>
    if name = "default" then
      .ok { Spec := { Credentials := { APISecretRef :=
        { Namespace := "crossplane-system", Name := "exoscale-creds" } } } }
    else .error ("ProviderConfig " ++ name ++ " not found")
  GetSecret := fun _ key =>
    if key = { Namespace := "crossplane-system", Name := "exoscale-creds" } then .ok secret
    else .error ("Secret " ++ key.Name ++ " not found")

/-- The connector of `Setup` over the sample API; applying the usage
succeeds. -/
def connector : exoscalesks.connector :=
  exoscalesks.Setup.connector kube (fun _ _ => none)

/-- The resource `c1` without a provider-config reference. -/
def unreferenced : v1alpha1.ExoscaleSKS :=
  (resourceNamed "c1" "c1" "calico" "pro").SetProviderConfigReference none

/-- The resource `c1` with a zone that holds a blank, "ch gva": the
cluster list URL of that zone does not parse. -/
def blankZone : Managed :=
  .ExoscaleSKS
    { Name := "c1",
      Spec :=
        { ProviderConfigReference := some { Name := "default" },
          ProviderReference := none,
          ForProvider :=
            { Name := "c1", Zone := "ch gva", Cni := "calico", ServiceLevel := "pro",
              NodepoolName := "pool", NodepoolSize := 3, NodepoolSecurityGroup := "",
              NodepoolInstanceType := "", NodepoolDiskSize := 0,
              NodepoolPrivateNetwork := "" } },
      Status := { AtProvider := { ID := "", State := "" } } }

/-- A remote state holding, in zone ch-gva-2, a cluster with the ID "c1" and
no name. -/
def nameless : List exo.SKSCluster :=
  [{ ID := some "c1", Name := none, ServiceLevel := some "pro",
     Version := some "1.28.4", CNI := some "calico", Zone := some "ch-gva-2" }]

end sample

/-! ## Theorems -/

/-! ### `strings.Replace` and `getUrl` -/

namespace strings

theorem HasPrefix_nil (s : List Char) : HasPrefix s [] = true := by
  cases s <;> rfl

/-- A match of `sep` that starts inside `z` cannot run over a following
character that `sep` does not contain. -/
theorem HasPrefix_of_append (c : Char) (rest : List Char) :
    ∀ (z sep : List Char), c ∉ sep → HasPrefix (z ++ c :: rest) sep = true →
      HasPrefix z sep = true := by
  intro z
  induction z with
  | nil =>
    intro sep hc h
    cases sep with
    | nil => rfl
    | cons p ps =>
      simp [HasPrefix] at h
      simp [h.1] at hc
  | cons a z ih =>
    intro sep hc h
    cases sep with
    | nil => rfl
    | cons p ps =>
      simp only [List.cons_append, HasPrefix, Bool.and_eq_true] at h ⊢
      exact ⟨h.1, ih ps (fun hmem => hc (List.mem_cons_of_mem _ hmem)) h.2⟩

theorem indexChars_cons (c : Char) (s sep : List Char) (h : HasPrefix (c :: s) sep = false) :
    indexChars (c :: s) sep = (indexChars s sep).map (· + 1) := by
  simp [indexChars, h]

/-- Where `sep` does not occur in `z`, and `z` is followed by a character
`sep` does not contain, the first occurrence in the whole is the first one
after `z`. -/
theorem indexChars_append (c : Char) (rest sep : List Char) (hc : c ∉ sep) :
    ∀ z : List Char, indexChars z sep = none →
      indexChars (z ++ c :: rest) sep = (indexChars (c :: rest) sep).map (· + z.length) := by
  intro z
  induction z with
  | nil => intro _; simp
  | cons a z ih =>
    intro h
    have hp : HasPrefix (a :: z) sep = false := by
      by_contra hne
      have ht : HasPrefix (a :: z) sep = true := by simpa using hne
      simp [indexChars, ht] at h
    have hz : indexChars z sep = none := by
      simpa [indexChars, hp] using h
    have hp2 : HasPrefix (a :: (z ++ c :: rest)) sep = false := by
      by_contra hne
      have ht : HasPrefix (a :: z ++ c :: rest) sep = true := by simpa using hne
      have := HasPrefix_of_append c rest (a :: z) sep hc ht
      simp [hp] at this
    rw [List.cons_append, indexChars_cons _ _ _ hp2, ih hz]
    cases indexChars (c :: rest) sep <;> simp [Nat.add_assoc]

/-- No occurrence of `sep` starts in a stretch that lacks the first character
of `sep`. -/
theorem indexChars_skip (p : Char) (ps sep : List Char) (hsep : sep = p :: ps) (s : List Char) :
    ∀ pre : List Char, (∀ c ∈ pre, c ≠ p) →
      indexChars (pre ++ s) sep = (indexChars s sep).map (· + pre.length) := by
  intro pre
  induction pre with
  | nil => intro _; simp
  | cons a pre ih =>
    intro h
    have hp : HasPrefix (a :: (pre ++ s)) sep = false := by
      subst hsep
      simp [HasPrefix, h a (List.mem_cons_self _ _)]
    rw [List.cons_append, indexChars_cons _ _ _ hp,
      ih (fun c hc => h c (List.mem_cons_of_mem _ hc))]
    cases indexChars s sep <;> simp [Nat.add_assoc]

theorem countFrom_pos (sep s : List Char) (fuel j : Nat) (h : indexChars s sep = some j) :
    countFrom sep (fuel + 1) s ≠ 0 := by
  simp [countFrom, h]

/-- With a limit of one, `strings.Replace` replaces the first occurrence. -/
theorem replaceChars_first (a old b new : List Char) (hold : old ≠ [])
    (h : indexChars (a ++ old ++ b) old = some a.length) :
    replaceChars (a ++ old ++ b) old new 1 = a ++ new ++ b := by
  unfold replaceChars
  by_cases heq : old = new
  · simp [heq]
  · have hcount : countChars (a ++ old ++ b) old ≠ 0 := by
      unfold countChars
      simp only [List.isEmpty_eq_true, hold, if_false]
      exact countFrom_pos _ _ _ _ h
    have hn : ¬ ((1 : Int) < 0 ∨ ((countChars (a ++ old ++ b) old : Nat) : Int) < 1) := by
      omega
    simp only [heq, false_or, one_ne_zero, if_false, hcount, hn, List.isEmpty_eq_true, hold]
    simp only [replaceFrom, h]
    have htake : List.take a.length (a ++ old ++ b) = a := by
      simp [List.append_assoc]
    have hdrop : List.drop (a.length + old.length) (a ++ old ++ b) = b := by
      rw [← List.length_append, List.drop_left]
    rw [htake, hdrop]

end strings

namespace exoapi

theorem apiURL_data :
    apiURL.data = "https://api-".data ++ "ZONE".data ++ ".exoscale.com/v2/ENDPOINT".data := by
  decide

/-- The first replacement of `getUrl` puts the zone in the place of ZONE. -/
theorem replace_zone (z : List Char) :
    strings.replaceChars apiURL.data "ZONE".data z 1 =
      "https://api-".data ++ z ++ ".exoscale.com/v2/ENDPOINT".data := by
  rw [apiURL_data]
  exact strings.replaceChars_first _ _ _ z (by decide) (by decide)

/-- In the URL with the zone filled in, the first ENDPOINT is the one of the
template, provided the zone holds none. -/
theorem index_endpoint (z : List Char) (h : strings.indexChars z "ENDPOINT".data = none) :
    strings.indexChars ("https://api-".data ++ z ++ ".exoscale.com/v2/".data ++ "ENDPOINT".data)
        "ENDPOINT".data =
      some ("https://api-".data ++ z ++ ".exoscale.com/v2/".data).length := by
  have hz := strings.indexChars_append '.' "exoscale.com/v2/ENDPOINT".data "ENDPOINT".data
    (by decide) z h
  have htail : strings.indexChars ('.' :: "exoscale.com/v2/ENDPOINT".data) "ENDPOINT".data
      = some 17 := by decide
  have hpost : ".exoscale.com/v2/".data ++ "ENDPOINT".data
      = '.' :: "exoscale.com/v2/ENDPOINT".data := by decide
  have hskip := strings.indexChars_skip 'E' "NDPOINT".data "ENDPOINT".data (by decide)
    (z ++ '.' :: "exoscale.com/v2/ENDPOINT".data) "https://api-".data (by decide)
  rw [List.append_assoc, List.append_assoc, hpost, hskip, hz, htail]
  have h1 : "https://api-".data.length = 12 := by decide
  have h2 : ".exoscale.com/v2/".data.length = 17 := by decide
  simp only [Option.map_some', List.length_append, h1, h2]
  congr 1
  omega

/-- The value of `getUrl` for a zone that does not contain ENDPOINT. -/
theorem getUrl_eq (zone endpoint : String) (h : strings.Contains zone "ENDPOINT" = false) :
    getUrl zone endpoint = "https://api-" ++ zone ++ ".exoscale.com/v2/" ++ endpoint := by
  have hz : strings.indexChars zone.data "ENDPOINT".data = none := by
    simpa [strings.Contains] using h
  have hsplit : ".exoscale.com/v2/ENDPOINT".data
      = ".exoscale.com/v2/".data ++ "ENDPOINT".data := by decide
  have key := strings.replaceChars_first
    ("https://api-".data ++ zone.data ++ ".exoscale.com/v2/".data) "ENDPOINT".data []
    endpoint.data (by decide) (by rw [List.append_nil]; exact index_endpoint zone.data hz)
  rw [List.append_nil, List.append_nil] at key
  apply String.ext
  unfold getUrl strings.Replace
  rw [replace_zone, hsplit, ← List.append_assoc, key]
  simp only [String.data_append]

end exoapi

/-! ### The remote calls of `RetrieveClusters` -/

namespace exoapi

/-- Every remote call of `RetrieveClusters` is a GET of the cluster list URL
of the zone, issued with the background context. -/
theorem RetrieveClusters_calls {σ : Type} (R : Remote σ) (s : σ) (exoApiKey exoApiSecret : String)
    (zone : String) :
    ∀ call ∈ (RetrieveClusters R s exoApiKey exoApiSecret zone).2,
      ∃ req : http.Request, call = RemoteCall.Do req ∧ req.Method = "GET" ∧
        req.URL = getUrl zone "sks-cluster" ∧ req.ctx = Context.Background := by
  intro call hcall
  unfold RetrieveClusters at hcall
  cases hp : R.NewSecurityProvider exoApiKey exoApiSecret with
  | error err => simp [hp] at hcall
  | ok provider =>
    by_cases hu : R.URLParses (getUrl zone "sks-cluster") = true
    · have hreq : ∀ x ∈ [RemoteCall.Do (provider.Intercept R
          { Method := "GET", URL := getUrl zone "sks-cluster", ctx := Context.Background,
            Authorization := none })],
          ∃ req : http.Request, x = RemoteCall.Do req ∧ req.Method = "GET" ∧
            req.URL = getUrl zone "sks-cluster" ∧ req.ctx = Context.Background := by
        intro x hx
        simp only [List.mem_singleton] at hx
        exact ⟨_, hx, rfl, rfl, rfl⟩
      simp only [hp, http.NewRequest, hu, if_true] at hcall
      apply hreq
      revert hcall
      cases R.Do s _ with
      | error err => exact id
      | ok res =>
        simp only []
        cases io.ReadAll res.Body with
        | error err => exact id
        | ok resBody =>
          simp only []
          cases R.Unmarshal resBody with
          | error err => exact id
          | ok clusters => exact id
    · simp [hp, http.NewRequest, hu] at hcall

/-- Once the provider is built and the URL parses, `RetrieveClusters` issues
exactly one remote call. -/
theorem RetrieveClusters_calls_length {σ : Type} (R : Remote σ) (s : σ)
    (exoApiKey exoApiSecret : String) (zone : String) (provider : SecurityProvider)
    (hp : R.NewSecurityProvider exoApiKey exoApiSecret = .ok provider)
    (hu : R.URLParses (getUrl zone "sks-cluster") = true) :
    (RetrieveClusters R s exoApiKey exoApiSecret zone).2.length = 1 := by
  unfold RetrieveClusters
  simp only [hp, http.NewRequest, hu, if_true]
  cases R.Do s _ with
  | error err => rfl
  | ok res =>
    simp only []
    cases io.ReadAll res.Body with
    | error err => rfl
    | ok resBody =>
      simp only []
      cases R.Unmarshal resBody with
      | error err => rfl
      | ok clusters => rfl

/-- Claim C10.  For a zone that does not contain the text ENDPOINT and any
endpoint, `getUrl zone endpoint` is "https://api-", the zone,
".exoscale.com/v2/" and the endpoint, in this order; and every request of
`RetrieveClusters` is a GET of "https://api-<zone>.exoscale.com/v2/sks-cluster",
one such request being made once the security provider is built and the URL
parses. -/
theorem getUrl_substitutes (zone endpoint : String)
    (h : strings.Contains zone "ENDPOINT" = false) :
    getUrl zone endpoint = "https://api-" ++ zone ++ ".exoscale.com/v2/" ++ endpoint ∧
    ∀ (σ : Type) (R : Remote σ) (s : σ) (exoApiKey exoApiSecret : String),
      (∀ call ∈ (RetrieveClusters R s exoApiKey exoApiSecret zone).2,
        ∃ req : http.Request, call = RemoteCall.Do req ∧ req.Method = "GET" ∧
          req.URL = "https://api-" ++ zone ++ ".exoscale.com/v2/" ++ "sks-cluster") ∧
      (∀ provider : SecurityProvider,
        R.NewSecurityProvider exoApiKey exoApiSecret = .ok provider →
        R.URLParses ("https://api-" ++ zone ++ ".exoscale.com/v2/" ++ "sks-cluster") = true →
        (RetrieveClusters R s exoApiKey exoApiSecret zone).2.length = 1) := by
  refine ⟨getUrl_eq zone endpoint h, ?_⟩
  intro σ R s exoApiKey exoApiSecret
  have hurl := getUrl_eq zone "sks-cluster" h
  constructor
  · intro call hcall
    obtain ⟨req, hreq, hm, hu, _⟩ := RetrieveClusters_calls R s exoApiKey exoApiSecret zone call hcall
    exact ⟨req, hreq, hm, hu.trans hurl⟩
  · intro provider hp hu
    exact RetrieveClusters_calls_length R s exoApiKey exoApiSecret zone provider hp (hurl ▸ hu)

/-- Witness of C10: zone "ch-gva-2", endpoint "sks-cluster", and the one
request `RetrieveClusters` makes on the sample remote. -/
theorem getUrl_substitutes_witness :
    strings.Contains "ch-gva-2" "ENDPOINT" = false ∧
    getUrl "ch-gva-2" "sks-cluster" = "https://api-ch-gva-2.exoscale.com/v2/sks-cluster" ∧
    (RetrieveClusters sample.remote sample.drifted "key" "secret" "ch-gva-2").2.length = 1 :=
  ⟨by decide, (getUrl_substitutes "ch-gva-2" "sks-cluster" (by decide)).1,
    ((getUrl_substitutes "ch-gva-2" "sks-cluster" (by decide)).2 _ sample.remote sample.drifted
      "key" "secret").2 ⟨"key", "secret"⟩ rfl (by decide)⟩

end exoapi

/-! ### `Observe`, `Create`, `Update` and `Delete` -/

namespace exoscalesks

/-- `Observe` leaves the remote state as it found it. -/
theorem Observe_remote {σ : Type} (R : Remote σ) (c : external) (ctx : Context) (mg : Managed)
    (s : σ) : (Observe R c ctx mg s).remote = s := by
  unfold Observe
  split
  · rfl
  · split
    · rfl
    · rfl
    · split
      · rfl
      · split
        · split <;> rfl
        · split <;> rfl

/-- `Observe` leaves the managed resource record as it found it. -/
theorem Observe_mg {σ : Type} (R : Remote σ) (c : external) (ctx : Context) (mg : Managed)
    (s : σ) : (Observe R c ctx mg s).mg = mg := by
  unfold Observe
  split
  · rfl
  · split
    · rfl
    · rfl
    · split
      · rfl
      · split
        · split <;> rfl
        · split <;> rfl

/-- The remote calls of `Observe`: those of `RetrieveClusters`, then at most
the one lookup, issued with the context `Observe` received. -/
theorem Observe_calls {σ : Type} (R : Remote σ) (c : external) (ctx : Context)
    (cr : v1alpha1.ExoscaleSKS) (s : σ) :
    (Observe R c ctx (.ExoscaleSKS cr) s).calls =
        (exoapi.RetrieveClusters R s c.exoApiKey c.exoApiSecret cr.Spec.ForProvider.Zone).2 ∨
    (Observe R c ctx (.ExoscaleSKS cr) s).calls =
        (exoapi.RetrieveClusters R s c.exoApiKey c.exoApiSecret cr.Spec.ForProvider.Zone).2 ++
          [RemoteCall.FindSKSCluster ctx cr.Spec.ForProvider.Zone cr.Name] := by
  unfold Observe
  simp only []
  rcases hrc : exoapi.RetrieveClusters R s c.exoApiKey c.exoApiSecret cr.Spec.ForProvider.Zone
    with ⟨r, calls⟩
  cases r with
  | panic p => exact Or.inl rfl
  | err e => exact Or.inl rfl
  | ok clusters =>
    simp only []
    cases R.NewClient c.exoApiKey c.exoApiSecret with
    | error e => exact Or.inl rfl
    | ok exoClient =>
      simp only []
      cases R.FindSKSCluster exoClient ctx s cr.Spec.ForProvider.Zone cr.Name with
      | error e =>
        simp only []
        split <;> exact Or.inr rfl
      | ok cl =>
        simp only []
        split <;> exact Or.inr rfl

/-- What `Observe` of an ExoscaleSKS resource returns, step by step, for
every behaviour of the remote collaborators.  It returns exists=false and no
error exactly when the cluster list was retrieved, the client was built and
the lookup failed with "resource not found"; it returns an error when the
retrieval returns an error, when (after it) the client cannot be built, and
when (after both) the lookup fails with another error; it returns exists=true
and no error when the lookup gives a cluster that carries its name and its
ID.  It panics when `RetrieveClusters` panics (the URL did not parse) and when
the lookup gives a cluster whose name or ID is nil. -/
theorem Observe_outcomes {σ : Type} (R : Remote σ) (c : external)
    (ctx : Context) (cr : v1alpha1.ExoscaleSKS) (s : σ) :
    ((∃ obs, (Observe R c ctx (.ExoscaleSKS cr) s).result = .ok obs ∧
          obs.ResourceExists = false) ↔
      ∃ clusters exoClient,
        (exoapi.RetrieveClusters R s c.exoApiKey c.exoApiSecret cr.Spec.ForProvider.Zone).1
          = .ok clusters ∧
        R.NewClient c.exoApiKey c.exoApiSecret = .ok exoClient ∧
        R.FindSKSCluster exoClient ctx s cr.Spec.ForProvider.Zone cr.Name
          = .error "resource not found") ∧
    (∀ e,
      (exoapi.RetrieveClusters R s c.exoApiKey c.exoApiSecret cr.Spec.ForProvider.Zone).1
        = .err e →
      ∃ e2, (Observe R c ctx (.ExoscaleSKS cr) s).result = .err e2) ∧
    (∀ clusters e,
      (exoapi.RetrieveClusters R s c.exoApiKey c.exoApiSecret cr.Spec.ForProvider.Zone).1
        = .ok clusters →
      R.NewClient c.exoApiKey c.exoApiSecret = .error e →
      ∃ e2, (Observe R c ctx (.ExoscaleSKS cr) s).result = .err e2) ∧
    (∀ clusters exoClient e,
      (exoapi.RetrieveClusters R s c.exoApiKey c.exoApiSecret cr.Spec.ForProvider.Zone).1
        = .ok clusters →
      R.NewClient c.exoApiKey c.exoApiSecret = .ok exoClient →
      R.FindSKSCluster exoClient ctx s cr.Spec.ForProvider.Zone cr.Name = .error e →
      e ≠ "resource not found" →
      ∃ e2, (Observe R c ctx (.ExoscaleSKS cr) s).result = .err e2) ∧
    (∀ clusters exoClient skscluster name id,
      (exoapi.RetrieveClusters R s c.exoApiKey c.exoApiSecret cr.Spec.ForProvider.Zone).1
        = .ok clusters →
      R.NewClient c.exoApiKey c.exoApiSecret = .ok exoClient →
      R.FindSKSCluster exoClient ctx s cr.Spec.ForProvider.Zone cr.Name = .ok skscluster →
      skscluster.Name = some name → skscluster.ID = some id →
      (Observe R c ctx (.ExoscaleSKS cr) s).result =
        .ok { ResourceExists := true, ResourceUpToDate := true, ConnectionDetails := [] }) ∧
    (∀ p,
      (exoapi.RetrieveClusters R s c.exoApiKey c.exoApiSecret cr.Spec.ForProvider.Zone).1
        = .panic p →
      (Observe R c ctx (.ExoscaleSKS cr) s).result = .panic p) ∧
    (∀ clusters exoClient skscluster,
      (exoapi.RetrieveClusters R s c.exoApiKey c.exoApiSecret cr.Spec.ForProvider.Zone).1
        = .ok clusters →
      R.NewClient c.exoApiKey c.exoApiSecret = .ok exoClient →
      R.FindSKSCluster exoClient ctx s cr.Spec.ForProvider.Zone cr.Name = .ok skscluster →
      skscluster.Name = none ∨ skscluster.ID = none →
      (Observe R c ctx (.ExoscaleSKS cr) s).result = .panic nilDereference) := by
  unfold Observe
  simp only []
  rcases hrc : exoapi.RetrieveClusters R s c.exoApiKey c.exoApiSecret cr.Spec.ForProvider.Zone
    with ⟨r, calls⟩
  cases r with
  | panic p =>
    refine ⟨by simp, by simp, by simp, by simp, by simp, ?_, by simp⟩
    intro p2 hp2
    simp only [Res.panic.injEq] at hp2
    subst hp2
    rfl
  | err e => simp
  | ok clusters =>
    simp only []
    cases hn : R.NewClient c.exoApiKey c.exoApiSecret with
    | error e => simp
    | ok exoClient =>
      simp only []
      cases hf : R.FindSKSCluster exoClient ctx s cr.Spec.ForProvider.Zone cr.Name with
      | error e =>
        have hnotok : ∀ (exoClient2 : exo.Client) (cl : exo.SKSCluster),
            Except.ok (ε := String) exoClient = Except.ok exoClient2 →
            R.FindSKSCluster exoClient2 ctx s cr.Spec.ForProvider.Zone cr.Name = .ok cl →
            False := by
          intro exoClient2 cl h2 h3
          simp only [Except.ok.injEq] at h2
          subst h2
          rw [hf] at h3
          cases h3
        by_cases he : e = "resource not found"
        · subst he
          refine ⟨by simp [hf], by simp, by simp, ?_, ?_, by simp, ?_⟩
          · intro clusters2 exoClient2 e2 _ h2 h3 h4
            simp only [Except.ok.injEq] at h2
            subst h2
            rw [hf] at h3
            simp only [Except.error.injEq] at h3
            exact absurd h3.symm h4
          · intro clusters2 exoClient2 cl name id _ h2 h3
            exact (hnotok exoClient2 cl h2 h3).elim
          · intro clusters2 exoClient2 cl _ h2 h3
            exact (hnotok exoClient2 cl h2 h3).elim
        · refine ⟨?_, by simp, by simp, by simp [he], ?_, by simp, ?_⟩
          · simp only [he, if_false]
            constructor
            · rintro ⟨obs, h1, _⟩
              cases h1
            · rintro ⟨clusters2, exoClient2, _, h2, h3⟩
              simp only [Except.ok.injEq] at h2
              subst h2
              rw [hf] at h3
              simp only [Except.error.injEq] at h3
              exact absurd h3 he
          · intro clusters2 exoClient2 cl name id _ h2 h3
            exact (hnotok exoClient2 cl h2 h3).elim
          · intro clusters2 exoClient2 cl _ h2 h3
            exact (hnotok exoClient2 cl h2 h3).elim
      | ok cl =>
        have hcl : ∀ (exoClient2 : exo.Client) (cl2 : exo.SKSCluster),
            Except.ok (ε := String) exoClient = Except.ok exoClient2 →
            R.FindSKSCluster exoClient2 ctx s cr.Spec.ForProvider.Zone cr.Name = .ok cl2 →
            cl2 = cl := by
          intro exoClient2 cl2 h2 h3
          simp only [Except.ok.injEq] at h2
          subst h2
          rw [hf] at h3
          simp only [Except.ok.injEq] at h3
          exact h3.symm
        have hnoterr : ∀ (exoClient2 : exo.Client) (e : String),
            Except.ok (ε := String) exoClient = Except.ok exoClient2 →
            R.FindSKSCluster exoClient2 ctx s cr.Spec.ForProvider.Zone cr.Name = .error e →
            False := by
          intro exoClient2 e h2 h3
          simp only [Except.ok.injEq] at h2
          subst h2
          rw [hf] at h3
          cases h3
        simp only []
        refine ⟨?_, by simp, by simp, ?_, ?_, by simp, ?_⟩
        · constructor
          · rintro ⟨obs, h1, h2⟩
            split at h1
            · simp only [Res.ok.injEq] at h1
              subst h1
              simp at h2
            · cases h1
          · rintro ⟨clusters2, exoClient2, _, h2, h3⟩
            exact (hnoterr exoClient2 _ h2 h3).elim
        · intro clusters2 exoClient2 e2 _ h2 h3
          exact (hnoterr exoClient2 _ h2 h3).elim
        · intro clusters2 exoClient2 cl2 name id _ h2 h3 hname hid
          have := hcl exoClient2 cl2 h2 h3
          subst this
          simp only [hname, hid]
        · intro clusters2 exoClient2 cl2 _ h2 h3 hnil
          have := hcl exoClient2 cl2 h2 h3
          subst this
          rcases hnil with hnil | hnil
          · simp only [hnil]
          · cases hname : cl2.Name with
            | none => simp only []
            | some name => simp only [hnil]

/-- Claim C2, evaluated on the code.  Zone "ch gva": the cluster list URL
does not parse, `http.NewRequest` returns an error that `RetrieveClusters`
drops, and `Observe` panics on the nil request instead of returning an error.
Remote holding a cluster with the ID "c1" and no name: the lookup of "c1"
succeeds, and `Observe` panics on the nil name instead of returning
exists=true.  For every input, `Observe` returns exists=false and no error
exactly when the lookup fails with "resource not found", and it panics
whenever `RetrieveClusters` panics or the cluster found lacks its name or its
ID; `Observe_outcomes` lists the remaining paths, on which it returns what the
claim says. -/
theorem Observe_panics_on_unchecked_nil :
    sample.remote.URLParses (exoapi.getUrl "ch gva" "sks-cluster") = false ∧
    (Observe sample.remote sample.credentials sample.reconcileCtx sample.blankZone
        sample.drifted).result = .panic nilDereference ∧
    sample.remote.FindSKSCluster { apiKey := "key", apiSecret := "secret" } sample.reconcileCtx
        sample.nameless "ch-gva-2" "c1"
      = .ok { ID := some "c1", Name := none, ServiceLevel := some "pro",
              Version := some "1.28.4", CNI := some "calico", Zone := some "ch-gva-2" } ∧
    (Observe sample.remote sample.credentials sample.reconcileCtx sample.c1
        sample.nameless).result = .panic nilDereference ∧
    ∀ (σ : Type) (R : Remote σ) (c : external) (ctx : Context) (cr : v1alpha1.ExoscaleSKS)
      (s : σ),
      ((∃ obs, (Observe R c ctx (.ExoscaleSKS cr) s).result = .ok obs ∧
            obs.ResourceExists = false) ↔
        ∃ clusters exoClient,
          (exoapi.RetrieveClusters R s c.exoApiKey c.exoApiSecret cr.Spec.ForProvider.Zone).1
            = .ok clusters ∧
          R.NewClient c.exoApiKey c.exoApiSecret = .ok exoClient ∧
          R.FindSKSCluster exoClient ctx s cr.Spec.ForProvider.Zone cr.Name
            = .error "resource not found") ∧
      (∀ p,
        (exoapi.RetrieveClusters R s c.exoApiKey c.exoApiSecret cr.Spec.ForProvider.Zone).1
          = .panic p →
        (Observe R c ctx (.ExoscaleSKS cr) s).result = .panic p) ∧
      (∀ clusters exoClient skscluster,
        (exoapi.RetrieveClusters R s c.exoApiKey c.exoApiSecret cr.Spec.ForProvider.Zone).1
          = .ok clusters →
        R.NewClient c.exoApiKey c.exoApiSecret = .ok exoClient →
        R.FindSKSCluster exoClient ctx s cr.Spec.ForProvider.Zone cr.Name = .ok skscluster →
        skscluster.Name = none ∨ skscluster.ID = none →
        (Observe R c ctx (.ExoscaleSKS cr) s).result = .panic nilDereference) := by
  refine ⟨by decide, by decide, rfl, by decide, ?_⟩
  intro σ R c ctx cr s
  have h := Observe_outcomes R c ctx cr s
  exact ⟨h.1, h.2.2.2.2.2.1, h.2.2.2.2.2.2⟩

/-- Claim C4.  `Observe` is read-only: it leaves the remote state and the
resource record as they were and issues only reading calls; hence a second
`Observe` right after the first returns the same result (the same pair of
exists and upToDate, or both fail alike). -/
theorem Observe_read_only_idempotent {σ : Type} (R : Remote σ) (c : external) (ctx : Context)
    (mg : Managed) (s : σ) :
    (Observe R c ctx mg s).remote = s ∧
    (Observe R c ctx mg s).mg = mg ∧
    (∀ call ∈ (Observe R c ctx mg s).calls, call.isRead = true) ∧
    (Observe R c ctx (Observe R c ctx mg s).mg (Observe R c ctx mg s).remote).result
      = (Observe R c ctx mg s).result := by
  refine ⟨Observe_remote R c ctx mg s, Observe_mg R c ctx mg s, ?_, ?_⟩
  · intro call hcall
    cases mg with
    | other name ref => simp [Observe] at hcall
    | ExoscaleSKS cr =>
      have hread : ∀ x ∈ (exoapi.RetrieveClusters R s c.exoApiKey c.exoApiSecret
          cr.Spec.ForProvider.Zone).2, x.isRead = true := by
        intro x hx
        obtain ⟨req, hreq, hm, _, _⟩ := exoapi.RetrieveClusters_calls R s _ _ _ x hx
        subst hreq
        simp [RemoteCall.isRead, hm]
      rcases Observe_calls R c ctx cr s with h | h
      · rw [h] at hcall
        exact hread call hcall
      · rw [h, List.mem_append] at hcall
        rcases hcall with hcall | hcall
        · exact hread call hcall
        · simp only [List.mem_singleton] at hcall
          subst hcall
          rfl
  · rw [Observe_remote, Observe_mg]

/-- Claim C8.  `Delete` of an ExoscaleSKS resource returns no error, whatever
the remote state holds; `Delete` returns an error only for a managed resource
that is not an ExoscaleSKS, and that error is "managed resource is not a
ExoscaleSKS custom resource". -/
theorem Delete_already_gone_is_success {σ : Type} (R : Remote σ) (c : external) (ctx : Context)
    (mg : Managed) (s : σ) :
    (∀ cr, mg = .ExoscaleSKS cr → (Delete R c ctx mg s).result = .ok ()) ∧
    (∀ e, (Delete R c ctx mg s).result = .err e →
      (∀ cr, mg ≠ .ExoscaleSKS cr) ∧ e = errNotExoscaleSKS ∧
        e = "managed resource is not a ExoscaleSKS custom resource") ∧
    (∀ p, (Delete R c ctx mg s).result ≠ .panic p) := by
  cases mg with
  | other name ref =>
    refine ⟨by simp, ?_, by simp [Delete]⟩
    intro e he
    simp only [Delete, Res.err.injEq] at he
    subst he
    exact ⟨by simp, rfl, rfl⟩
  | ExoscaleSKS cr => simp [Delete]

/-- Claim C9.  `Delete` and `Update` issue no remote call and leave the remote
state as it was, so `Observe` reports after them what it reported before; in
particular a cluster that `Observe` saw before a successful `Delete` is still
seen after it. -/
theorem Delete_Update_leave_remote {σ : Type} (R : Remote σ) (c : external) (ctx : Context)
    (mg : Managed) (s : σ) :
    (Delete R c ctx mg s).calls = [] ∧ (Delete R c ctx mg s).remote = s ∧
    (Update R c ctx mg s).calls = [] ∧ (Update R c ctx mg s).remote = s ∧
    (Observe R c ctx (Delete R c ctx mg s).mg (Delete R c ctx mg s).remote).result
      = (Observe R c ctx mg s).result ∧
    (Observe R c ctx (Update R c ctx mg s).mg (Update R c ctx mg s).remote).result
      = (Observe R c ctx mg s).result ∧
    (∀ obs, (Observe R c ctx mg s).result = .ok obs → obs.ResourceExists = true →
      (Delete R c ctx mg s).result = .ok () →
      ∃ obs2, (Observe R c ctx (Delete R c ctx mg s).mg (Delete R c ctx mg s).remote).result
          = .ok obs2 ∧ obs2.ResourceExists = true) := by
  have hd : (Delete R c ctx mg s).calls = [] ∧ (Delete R c ctx mg s).remote = s ∧
      (Delete R c ctx mg s).mg = mg := by
    cases mg <;> exact ⟨rfl, rfl, rfl⟩
  have hu : (Update R c ctx mg s).calls = [] ∧ (Update R c ctx mg s).remote = s ∧
      (Update R c ctx mg s).mg = mg := by
    cases mg <;> exact ⟨rfl, rfl, rfl⟩
  refine ⟨hd.1, hd.2.1, hu.1, hu.2.1, ?_, ?_, ?_⟩
  · rw [hd.2.1, hd.2.2]
  · rw [hu.2.1, hu.2.2]
  · intro obs hobs hex _
    rw [hd.2.1, hd.2.2]
    exact ⟨obs, hobs, hex⟩

/-- Witness of C9: on the sample remote holding the cluster "c1", `Observe`
reports exists=true, `Delete` succeeds, and `Observe` reports exists=true
again. -/
theorem Delete_Update_leave_remote_witness :
    (Observe sample.remote sample.credentials sample.reconcileCtx sample.c1 sample.drifted).result
      = .ok { ResourceExists := true, ResourceUpToDate := true, ConnectionDetails := [] } ∧
    (Delete sample.remote sample.credentials sample.reconcileCtx sample.c1 sample.drifted).result
      = .ok () ∧
    ∃ obs2, (Observe sample.remote sample.credentials sample.reconcileCtx
        (Delete sample.remote sample.credentials sample.reconcileCtx sample.c1 sample.drifted).mg
        (Delete sample.remote sample.credentials sample.reconcileCtx sample.c1
          sample.drifted).remote).result = .ok obs2 ∧ obs2.ResourceExists = true :=
  ⟨by decide, by decide,
    (Delete_Update_leave_remote sample.remote sample.credentials sample.reconcileCtx sample.c1
      sample.drifted).2.2.2.2.2.2
      { ResourceExists := true, ResourceUpToDate := true, ConnectionDetails := [] }
      (by decide) rfl (by decide)⟩

/-- Claim C1, evaluated on the code.  The resource has the metadata name
"sks-prod" and the spec.forProvider.name "prod-cluster"; the remote holds no
cluster.  `Observe` reports exists=false; `Create` succeeds and the remote
then holds the cluster "prod-cluster"; `Observe` of the same resource on that
state still reports exists=false, since it looks the cluster up under the
metadata name (the creation request carries "prod-cluster", the lookup asks
for "sks-prod").  For the resource "c1", whose two names agree, `Observe`
after `Create` reports exists=true. -/
theorem Create_then_Observe_renamed :
    (Observe sample.remote sample.credentials sample.reconcileCtx sample.renamed []).result
      = .ok { ResourceExists := false, ResourceUpToDate := true, ConnectionDetails := [] } ∧
    (Create sample.remote sample.credentials sample.reconcileCtx sample.renamed []).result
      = .ok { ConnectionDetails := [] } ∧
    (Create sample.remote sample.credentials sample.reconcileCtx sample.renamed []).remote
      = [{ ID := some "id-prod-cluster", Name := some "prod-cluster", ServiceLevel := some "pro",
           Version := some "1.28.4", CNI := some "calico", Zone := some "ch-gva-2" }] ∧
    (Observe sample.remote sample.credentials sample.reconcileCtx sample.renamed
        (Create sample.remote sample.credentials sample.reconcileCtx sample.renamed
          []).remote).result
      = .ok { ResourceExists := false, ResourceUpToDate := true, ConnectionDetails := [] } ∧
    (Create sample.remote sample.credentials sample.reconcileCtx sample.renamed []).calls
      = [.CreateSKSCluster Context.Background "ch-gva-2"
          { ID := none, Name := some "prod-cluster", ServiceLevel := some "pro",
            Version := some "1.28.4", CNI := some "calico", Zone := some "ch-gva-2" }] ∧
    (Observe sample.remote sample.credentials sample.reconcileCtx sample.renamed []).calls.getLast?
      = some (.FindSKSCluster sample.reconcileCtx "ch-gva-2" "sks-prod") ∧
    (Observe sample.remote sample.credentials sample.reconcileCtx sample.c1
        (Create sample.remote sample.credentials sample.reconcileCtx sample.c1 []).remote).result
      = .ok { ResourceExists := true, ResourceUpToDate := true, ConnectionDetails := [] } := by
  decide

/-- Claim C3, evaluated on the code.  The remote holds the cluster "c1" with
CNI "cilium" and service level "starter"; the resource "c1" asks for CNI
"calico" and service level "pro".  `Observe` reports exists=true and
upToDate=true; and on no input does a successful `Observe` report
upToDate=false. -/
theorem Observe_reports_drift_up_to_date :
    sample.drifted.map (fun cl => (cl.Name, cl.CNI, cl.ServiceLevel))
      = [(some "c1", some "cilium", some "starter")] ∧
    (Observe sample.remote sample.credentials sample.reconcileCtx
        (.ExoscaleSKS (sample.resourceNamed "c1" "c1" "calico" "pro")) sample.drifted).result
      = .ok { ResourceExists := true, ResourceUpToDate := true, ConnectionDetails := [] } ∧
    ∀ (σ : Type) (R : Remote σ) (c : external) (ctx : Context) (mg : Managed) (s : σ)
      (obs : managed.ExternalObservation),
      (Observe R c ctx mg s).result = .ok obs → obs.ResourceUpToDate = true := by
  refine ⟨by decide, by decide, ?_⟩
  intro σ R c ctx mg s obs h
  unfold Observe at h
  split at h
  · cases h
  · split at h
    · cases h
    · cases h
    · split at h
      · cases h
      · split at h
        · split at h
          · simp only [Res.ok.injEq] at h
            subst h
            rfl
          · cases h
        · split at h
          · simp only [Res.ok.injEq] at h
            subst h
            rfl
          · cases h

/-- Claim C7, evaluated on the code.  With the reconcile context (which
carries a deadline), `Create` issues its one remote call, the cluster
creation, with the background context, and `Observe` issues the cluster list
retrieval with the background context and only the lookup with the context it
received; for every input the creation call of `Create` carries the
background context. -/
theorem Create_ignores_reconcile_context :
    sample.reconcileCtx = Context.WithDeadline 600 ∧
    (Create sample.remote sample.credentials sample.reconcileCtx sample.c1 []).calls.map
      RemoteCall.ctx = [Context.Background] ∧
    (Observe sample.remote sample.credentials sample.reconcileCtx sample.c1 []).calls.map
      RemoteCall.ctx = [Context.Background, Context.WithDeadline 600] ∧
    ∀ (σ : Type) (R : Remote σ) (c : external) (ctx : Context) (mg : Managed) (s : σ),
      ∀ call ∈ (Create R c ctx mg s).calls, call.ctx = Context.Background := by
  refine ⟨rfl, by decide, by decide, ?_⟩
  intro σ R c ctx mg s call hcall
  unfold Create at hcall
  split at hcall
  · simp at hcall
  · split at hcall
    · simp at hcall
    · simp only [] at hcall
      split at hcall
      · simp only [List.mem_singleton] at hcall
        subst hcall
        rfl
      · split at hcall
        · simp only [List.mem_singleton] at hcall
          subst hcall
          rfl
        · simp only [List.mem_singleton] at hcall
          subst hcall
          rfl

end exoscalesks

/-! ### `Connect` -/

namespace exoscalesks

/-- The tracker `Setup` installs reports a resource that has no
provider-config reference. -/
theorem Setup_connector_Track_nil (kube : client.Client)
    (apply : Context → Managed → Option String) (ctx : Context) (cr : v1alpha1.ExoscaleSKS)
    (h : cr.GetProviderConfigReference = none) :
    ∃ e, (Setup.connector kube apply).usage.Track ctx (.ExoscaleSKS cr) = some e := by
  refine ⟨resource.errMissingPCRef, ?_⟩
  simp [Setup.connector, resource.NewProviderConfigUsageTracker,
    Managed.GetProviderConfigReference, h]

/-- The nil check is the tracker's: `Connect` itself dereferences the
reference unguarded, so under a tracker that lets a missing reference pass
the dereference panics. -/
theorem Connect_dereferences_unguarded (StdEncoding : base64.Encoding) (c : connector)
    (ctx : Context) (cr : v1alpha1.ExoscaleSKS)
    (hTrack : c.usage.Track ctx (.ExoscaleSKS cr) = none)
    (hRef : cr.GetProviderConfigReference = none) :
    Connect StdEncoding c ctx (.ExoscaleSKS cr) = .panic nilDereference := by
  simp [Connect, hTrack, hRef]

/-- Claim C5.  For a connector whose usage tracker reports a resource without
provider-config reference (as the tracker `Setup` installs does), `Connect`
of an ExoscaleSKS resource ends with an adapter or with an error, never with a
panic; when the reference is absent, and when the ProviderConfig it names
cannot be fetched, `Connect` returns an error. -/
theorem Connect_reports_missing_reference (StdEncoding : base64.Encoding) (c : connector)
    (hTrack : ∀ ctx cr, cr.GetProviderConfigReference = none →
      ∃ e, c.usage.Track ctx (.ExoscaleSKS cr) = some e)
    (ctx : Context) (cr : v1alpha1.ExoscaleSKS) :
    ((∃ a, Connect StdEncoding c ctx (.ExoscaleSKS cr) = .ok a) ∨
      (∃ e, Connect StdEncoding c ctx (.ExoscaleSKS cr) = .err e)) ∧
    (cr.GetProviderConfigReference = none →
      ∃ e, Connect StdEncoding c ctx (.ExoscaleSKS cr) = .err e) ∧
    (∀ ref e, cr.GetProviderConfigReference = some ref →
      c.kube.GetProviderConfig ctx ref.Name = .error e →
      ∃ e2, Connect StdEncoding c ctx (.ExoscaleSKS cr) = .err e2) := by
  have hnil : cr.GetProviderConfigReference = none →
      ∃ e, Connect StdEncoding c ctx (.ExoscaleSKS cr) = .err e := by
    intro h
    obtain ⟨e, he⟩ := hTrack ctx cr h
    exact ⟨Wrap e errTrackPCUsage, by simp [Connect, he]⟩
  refine ⟨?_, hnil, ?_⟩
  · cases hr : cr.GetProviderConfigReference with
    | none => exact Or.inr (hnil hr)
    | some ref =>
      unfold Connect
      simp only [hr]
      cases c.usage.Track ctx (.ExoscaleSKS cr) with
      | some e => exact Or.inr ⟨_, rfl⟩
      | none =>
        simp only []
        cases c.kube.GetProviderConfig ctx ref.Name with
        | error e => exact Or.inr ⟨_, rfl⟩
        | ok pc =>
          simp only []
          cases parseSecretKey StdEncoding _ exoApiKey with
          | error e => exact Or.inr ⟨_, rfl⟩
          | ok exoKey =>
            simp only []
            cases parseSecretKey StdEncoding _ exoApiSecret with
            | error e => exact Or.inr ⟨_, rfl⟩
            | ok exoSecret => exact Or.inl ⟨_, rfl⟩
  · intro ref e hr hpc
    unfold Connect
    simp only [hr, hpc]
    cases c.usage.Track ctx (.ExoscaleSKS cr) with
    | some e => exact ⟨_, rfl⟩
    | none => exact ⟨_, rfl⟩

/-- Witness of C5: the connector of `Setup` over the sample API, and the
resource "c1" without provider-config reference. -/
theorem Connect_reports_missing_reference_witness :
    sample.unreferenced.GetProviderConfigReference = none ∧
    ∃ e, Connect sample.StdEncoding sample.connector sample.reconcileCtx
      (.ExoscaleSKS sample.unreferenced) = .err e :=
  ⟨rfl, (Connect_reports_missing_reference sample.StdEncoding sample.connector
    (fun ctx cr h => Setup_connector_Track_nil sample.kube (fun _ _ => none) ctx cr h)
    sample.reconcileCtx sample.unreferenced).2.1 rfl⟩

/-- The result of `parseSecretKey`, by cases on the value under the key. -/
theorem parseSecretKey_ok (StdEncoding : base64.Encoding) (secret : corev1.Secret)
    (key data value : String) (hd : secret.Data key = some data)
    (hv : StdEncoding.DecodeString data = .ok value) :
    parseSecretKey StdEncoding secret key = .ok value := by
  simp [parseSecretKey, hd, hv]

theorem parseSecretKey_error_iff (StdEncoding : base64.Encoding) (secret : corev1.Secret)
    (key : String) :
    (∃ e, parseSecretKey StdEncoding secret key = .error e) ↔
      (secret.Data key = none ∨
        ∃ d e, secret.Data key = some d ∧ StdEncoding.DecodeString d = .error e) := by
  unfold parseSecretKey
  cases hd : secret.Data key with
  | none => simp
  | some d =>
    cases hv : StdEncoding.DecodeString d with
    | error e => simp [hv]
    | ok v => simp [hv]

/-- Claim C6.  Once usage tracking and the fetch of the ProviderConfig have
succeeded, `Connect` returns an error exactly when the fetch of the
credential secret failed, or the secret has no value under EXOSCALE_API_KEY
or under EXOSCALE_API_SECRET, or one of the two values does not decode as
base64; otherwise it returns the adapter whose API key and API secret are the
decodings of the two values.  `parseSecretKey` returns the decoded text of a
present value that decodes, an empty value included. -/
theorem Connect_credentials (StdEncoding : base64.Encoding) (c : connector) (ctx : Context)
    (cr : v1alpha1.ExoscaleSKS) (ref : v1alpha1.Reference) (pc : apisv1alpha1.ProviderConfig)
    (hTrack : c.usage.Track ctx (.ExoscaleSKS cr) = none)
    (hRef : cr.GetProviderConfigReference = some ref)
    (hPC : c.kube.GetProviderConfig ctx ref.Name = .ok pc) :
    ((∃ e, Connect StdEncoding c ctx (.ExoscaleSKS cr) = .err e) ↔
      ((∃ e, c.kube.GetSecret ctx
          { Namespace := pc.Spec.Credentials.APISecretRef.Namespace,
            Name := pc.Spec.Credentials.APISecretRef.Name } = .error e) ∨
        ∃ secret, c.kube.GetSecret ctx
            { Namespace := pc.Spec.Credentials.APISecretRef.Namespace,
              Name := pc.Spec.Credentials.APISecretRef.Name } = .ok secret ∧
          (secret.Data "EXOSCALE_API_KEY" = none ∨
            secret.Data "EXOSCALE_API_SECRET" = none ∨
            (∃ d e, secret.Data "EXOSCALE_API_KEY" = some d ∧
              StdEncoding.DecodeString d = .error e) ∨
            (∃ d e, secret.Data "EXOSCALE_API_SECRET" = some d ∧
              StdEncoding.DecodeString d = .error e)))) ∧
    ((∀ e, Connect StdEncoding c ctx (.ExoscaleSKS cr) ≠ .err e) →
      ∃ secret dk ds vk vs,
        c.kube.GetSecret ctx
          { Namespace := pc.Spec.Credentials.APISecretRef.Namespace,
            Name := pc.Spec.Credentials.APISecretRef.Name } = .ok secret ∧
        secret.Data "EXOSCALE_API_KEY" = some dk ∧ StdEncoding.DecodeString dk = .ok vk ∧
        secret.Data "EXOSCALE_API_SECRET" = some ds ∧ StdEncoding.DecodeString ds = .ok vs ∧
        Connect StdEncoding c ctx (.ExoscaleSKS cr)
          = .ok { exoApiKey := vk, exoApiSecret := vs }) ∧
    (∀ (secret : corev1.Secret) (key d v : String), secret.Data key = some d →
      StdEncoding.DecodeString d = .ok v → parseSecretKey StdEncoding secret key = .ok v) ∧
    (∀ (secret : corev1.Secret) (key v : String), secret.Data key = some "" →
      StdEncoding.DecodeString "" = .ok v → parseSecretKey StdEncoding secret key = .ok v) := by
  refine ⟨?_, ?_, fun secret key d v hd hv => parseSecretKey_ok StdEncoding secret key d v hd hv,
    fun secret key v hd hv => parseSecretKey_ok StdEncoding secret key "" v hd hv⟩
  · unfold Connect
    simp only [hTrack, hRef, hPC]
    cases hs : c.kube.GetSecret ctx
        { Namespace := pc.Spec.Credentials.APISecretRef.Namespace,
          Name := pc.Spec.Credentials.APISecretRef.Name } with
    | error e => simp [parseSecretKey, corev1.Secret.zero, exoApiKey]
    | ok secret =>
      simp only [parseSecretKey, exoApiKey, exoApiSecret]
      cases hk : secret.Data "EXOSCALE_API_KEY" with
      | none => simp [hk]
      | some dk =>
        cases hvk : StdEncoding.DecodeString dk with
        | error e => simp [hk, hvk]
        | ok vk =>
          cases hsec : secret.Data "EXOSCALE_API_SECRET" with
          | none => simp [hk, hsec, hvk]
          | some ds =>
            cases hvs : StdEncoding.DecodeString ds with
            | error e => simp [hk, hsec, hvk, hvs]
            | ok vs => simp [hk, hsec, hvk, hvs]
  · intro h
    unfold Connect at h ⊢
    simp only [hTrack, hRef, hPC] at h ⊢
    cases hs : c.kube.GetSecret ctx
        { Namespace := pc.Spec.Credentials.APISecretRef.Namespace,
          Name := pc.Spec.Credentials.APISecretRef.Name } with
    | error e =>
      rw [hs] at h
      exact absurd rfl (h _)
    | ok secret =>
      rw [hs] at h
      simp only [parseSecretKey, exoApiKey, exoApiSecret] at h ⊢
      cases hk : secret.Data "EXOSCALE_API_KEY" with
      | none =>
        simp only [hk] at h
        exact absurd rfl (h _)
      | some dk =>
        simp only [hk] at h
        cases hvk : StdEncoding.DecodeString dk with
        | error e =>
          simp only [hvk] at h
          exact absurd rfl (h _)
        | ok vk =>
          simp only [hvk] at h
          cases hsec : secret.Data "EXOSCALE_API_SECRET" with
          | none =>
            simp only [hsec] at h
            exact absurd rfl (h _)
          | some ds =>
            simp only [hsec] at h
            cases hvs : StdEncoding.DecodeString ds with
            | error e =>
              simp only [hvs] at h
              exact absurd rfl (h _)
            | ok vs =>
              exact ⟨secret, dk, ds, vk, vs, rfl, hk, hvk, hsec, hvs, by simp [hvk, hsec, hvs]⟩

/-- On the sample API, `Connect` of the resource "c1" gives the adapter with
the decoded key and secret. -/
theorem Connect_sample :
    Connect sample.StdEncoding sample.connector sample.reconcileCtx
      (.ExoscaleSKS (sample.resourceNamed "c1" "c1" "calico" "pro"))
      = .ok { exoApiKey := "key", exoApiSecret := "secret" } := by
  decide

/-- Witness of C6: the connector of `Setup` over the sample API and the
resource "c1"; the tracker, the reference and the ProviderConfig are as the
hypotheses ask, `Connect` returns an adapter holding decoded credentials, and
the empty value under "EMPTY" decodes to the empty text. -/
theorem Connect_credentials_witness :
    sample.connector.usage.Track sample.reconcileCtx
      (.ExoscaleSKS (sample.resourceNamed "c1" "c1" "calico" "pro")) = none ∧
    (sample.resourceNamed "c1" "c1" "calico" "pro").GetProviderConfigReference
      = some { Name := "default" } ∧
    (∃ secret dk ds vk vs,
      sample.kube.GetSecret sample.reconcileCtx
        { Namespace := "crossplane-system", Name := "exoscale-creds" } = .ok secret ∧
      secret.Data "EXOSCALE_API_KEY" = some dk ∧ sample.StdEncoding.DecodeString dk = .ok vk ∧
      secret.Data "EXOSCALE_API_SECRET" = some ds ∧
      sample.StdEncoding.DecodeString ds = .ok vs ∧
      Connect sample.StdEncoding sample.connector sample.reconcileCtx
        (.ExoscaleSKS (sample.resourceNamed "c1" "c1" "calico" "pro"))
        = .ok { exoApiKey := vk, exoApiSecret := vs }) ∧
    parseSecretKey sample.StdEncoding sample.secret "EMPTY" = .ok "" :=
  ⟨rfl, rfl,
    (Connect_credentials sample.StdEncoding sample.connector sample.reconcileCtx
      (sample.resourceNamed "c1" "c1" "calico" "pro") { Name := "default" }
      { Spec := { Credentials := { APISecretRef :=
        { Namespace := "crossplane-system", Name := "exoscale-creds" } } } }
      rfl rfl rfl).2.1 (fun e h => by rw [Connect_sample] at h; cases h),
    (Connect_credentials sample.StdEncoding sample.connector sample.reconcileCtx
      (sample.resourceNamed "c1" "c1" "calico" "pro") { Name := "default" }
      { Spec := { Credentials := { APISecretRef :=
        { Namespace := "crossplane-system", Name := "exoscale-creds" } } } }
      rfl rfl rfl).2.2.2 sample.secret "EMPTY" "" rfl rfl⟩

end exoscalesks
